import Mathlib

/-!
Verification development for the `database_connection_honeycomb` repository
(file `database_connection_honeycomb.py`).

The Python source is shallowly embedded as executable Lean definitions:

* Python `datetime` values are modelled by `PyDatetime`: the naive clock value
  is a count of microseconds since 0001-01-01T00:00:00 (the proleptic Gregorian
  calendar used by Python's `datetime`), and `tz` is the UTC offset in
  microseconds carried by the `tzinfo` member (`none` models a naive value).
  The textual branch of `_python_datetime_utc` (the `dateutil.parser.parse`
  fallback) is an external library that produces such a typed value and feeds
  it to the very same offset rule, so the embedding works with typed values.
* Python strings are Lean `String`s; the remote client, `json.loads` and
  `json.dumps` are external collaborators and appear as function parameters.
* Raised `ValueError`s are modelled with `Except String`, carrying the exact
  message of the `raise` statement.
-/

/-- Python `datetime.datetime`: `clockMicros` is the naive clock reading in
microseconds since 0001-01-01T00:00:00, `tz` the `tzinfo` UTC offset in
microseconds (`none` = naive). -/
structure PyDatetime where
  clockMicros : Int
  tz : Option Int
deriving DecidableEq

/-- The instant a `datetime` denotes: aware values subtract their offset
(Python compares aware datetimes by this quantity); a naive value is read
as its clock value (naive/aware comparisons never happen in the embedded
code because every operand goes through `_python_datetime_utc` first). -/
def instantMicros (d : PyDatetime) : Int :=
  match d.tz with
  | Option.none => d.clockMicros
  | Option.some off => d.clockMicros - off

/-- Python `<` on (aware) datetimes. -/
def pyLt (a b : PyDatetime) : Bool :=
  decide (instantMicros a < instantMicros b)

/-- Python `>` on (aware) datetimes. -/
def pyGt (a b : PyDatetime) : Bool :=
  pyLt b a

/-- `_python_datetime_utc` (source lines 304-316), typed branch: a naive value
gets `replace(tzinfo=datetime.timezone.utc)` (tag as UTC, clock unchanged); an
aware value gets `astimezone(tz=datetime.timezone.utc)` (shift the clock by
the attached offset, then carry offset 0). -/
def _python_datetime_utc (timestamp : PyDatetime) : PyDatetime :=
  match timestamp.tz with
  | Option.none => { clockMicros := timestamp.clockMicros, tz := Option.some 0 }
  | Option.some off => { clockMicros := timestamp.clockMicros - off, tz := Option.some 0 }

/-- Gregorian leap-year rule (as in Python's `datetime` calendar). -/
def isLeap (y : Nat) : Bool :=
  y % 4 == 0 && (y % 100 != 0 || y % 400 == 0)

def daysInYear (y : Nat) : Nat :=
  if isLeap y then 366 else 365

/-- Split a day count (days since 0001-01-01) into the Gregorian year and the
zero-based day of that year, scanning forward from year `y`. The first
argument is recursion fuel; every step strips at least 365 days, so `d + 1`
units are always enough. -/
def yearFromDaysAux : Nat → Nat → Nat → Nat × Nat
  | 0, y, d => (y, d)
  | fuel + 1, y, d =>
    if d < daysInYear y then (y, d) else yearFromDaysAux fuel (y + 1) (d - daysInYear y)

def yearFromDays (y d : Nat) : Nat × Nat :=
  yearFromDaysAux (d + 1) y d

def monthLengths (leap : Bool) : List Nat :=
  [31, if leap then 29 else 28, 31, 30, 31, 30, 31, 31, 30, 31, 30, 31]

/-- Walk the month-length table: from a zero-based day of year, produce the
one-based month (starting at `m`) and the zero-based day of month. -/
def monthFromDoy (lengths : List Nat) (m doy : Nat) : Nat × Nat :=
  match lengths with
  | [] => (m, doy)
  | len :: rest => if doy < len then (m, doy) else monthFromDoy rest (m + 1) (doy - len)

def usPerDay : Nat := 86400000000

/-- The broken-down fields of a Python `datetime` (what `strftime` reads). -/
structure DateFields where
  year : Nat
  month : Nat
  day : Nat
  hour : Nat
  minute : Nat
  second : Nat
  microsecond : Nat

/-- Recover the calendar fields stored by Python's `datetime` from the
microsecond count since 0001-01-01T00:00:00. -/
def fieldsOfMicros (m : Nat) : DateFields :=
  let yd := yearFromDays 1 (m / usPerDay)
  let md := monthFromDoy (monthLengths (isLeap yd.1)) 1 yd.2
  { year := yd.1, month := md.1, day := md.2 + 1,
    hour := m / 3600000000 % 24, minute := m / 60000000 % 60,
    second := m / 1000000 % 60, microsecond := m % 1000000 }

/-- `%02d`: two-digit zero-padded decimal rendering (faithful for values
below 100, which the `datetime` field invariants guarantee). -/
def pad2 (n : Nat) : List Char :=
  [Nat.digitChar (n / 10 % 10), Nat.digitChar (n % 10)]

/-- `%04d` (the `%Y` rendering): four-digit zero-padded decimal, faithful for
values below 10000; Python's `datetime` restricts years to 1..9999. -/
def pad4 (n : Nat) : List Char :=
  [Nat.digitChar (n / 1000 % 10), Nat.digitChar (n / 100 % 10),
   Nat.digitChar (n / 10 % 10), Nat.digitChar (n % 10)]

/-- `%06d` (the `%f` rendering): six-digit zero-padded decimal, faithful for
values below 1000000 (the `microsecond` field invariant). -/
def pad6 (n : Nat) : List Char :=
  [Nat.digitChar (n / 100000 % 10), Nat.digitChar (n / 10000 % 10),
   Nat.digitChar (n / 1000 % 10), Nat.digitChar (n / 100 % 10),
   Nat.digitChar (n / 10 % 10), Nat.digitChar (n % 10)]

/-- `strftime('%Y-%m-%dT%H:%M:%S.%fZ')` applied to the broken-down fields. -/
def strftimeHoneycomb (f : DateFields) : String :=
  String.mk (pad4 f.year ++ '-' :: pad2 f.month ++ '-' :: pad2 f.day ++
    'T' :: pad2 f.hour ++ ':' :: pad2 f.minute ++ ':' :: pad2 f.second ++
    '.' :: pad6 f.microsecond ++ ['Z'])

/-- `_datetime_honeycomb_string` (source lines 318-321): normalize to UTC with
`_python_datetime_utc`, then format with `strftime('%Y-%m-%dT%H:%M:%S.%fZ')`. -/
def _datetime_honeycomb_string (timestamp : PyDatetime) : String :=
  strftimeHoneycomb (fieldsOfMicros (_python_datetime_utc timestamp).clockMicros.toNat)

/-- Number of days in the years `1, ..., y-1` (the Gregorian closed form
CPython's `datetime._days_before_year` uses). -/
def daysBeforeYear (y : Nat) : Nat :=
  365 * (y - 1) + (y - 1) / 4 - (y - 1) / 100 + (y - 1) / 400

/-- One past the largest microsecond count representable by a Python
`datetime` (whose year is at most 9999). -/
def maxClockMicros : Int :=
  ((usPerDay * daysBeforeYear 10000 : Nat) : Int)

/-- The range of clock values a Python `datetime` can hold; a timestamp is
accepted by the normalizer exactly when its normalized value stays in range
(outside it, `astimezone` raises `OverflowError`). -/
def validPy (d : PyDatetime) : Prop :=
  0 ≤ d.clockMicros ∧ d.clockMicros < maxClockMicros

instance (d : PyDatetime) : Decidable (validPy d) := by
  unfold validPy
  infer_instance

/-- One character class of the wire pattern: `none` = any decimal digit,
`some c` = exactly the character `c`. -/
def honeycombPatternSpec : List (Option Char) :=
  [Option.none, Option.none, Option.none, Option.none, Option.some '-',
   Option.none, Option.none, Option.some '-', Option.none, Option.none,
   Option.some 'T', Option.none, Option.none, Option.some ':',
   Option.none, Option.none, Option.some ':', Option.none, Option.none,
   Option.some '.', Option.none, Option.none, Option.none, Option.none,
   Option.none, Option.none, Option.some 'Z']

def checkPattern : List (Option Char) → List Char → Bool
  | [], [] => true
  | Option.none :: ps, c :: cs => c.isDigit && checkPattern ps cs
  | Option.some t :: ps, c :: cs => c == t && checkPattern ps cs
  | _, _ => false

/-- Matcher for the exact wire pattern
`\d\x7b4\x7d-\d\x7b2\x7d-\d\x7b2\x7dT\d\x7b2\x7d:\d\x7b2\x7d:\d\x7b2\x7d\.\d\x7b6\x7dZ`. -/
def matchesHoneycombPattern (s : String) : Bool :=
  checkPattern honeycombPatternSpec s.data

/-- Python `', '.join`. -/
def joinComma : List String → String
  | [] => ""
  | [s] => s
  | s :: rest => s ++ ", " ++ joinComma rest

/-- `_query_expression_string` (source lines 323-339): render one filter node;
each present argument appends its fragment to the running string. -/
def _query_expression_string (field_string operator_string value_string : Option String)
    (children_query_expression_string_list : Option (List String)) : String :=
  "\x7b"
    ++ (match field_string with
        | Option.some f => "field: \"" ++ f ++ "\", "
        | Option.none => "")
    ++ (match operator_string with
        | Option.some op => "operator: " ++ op ++ ", "
        | Option.none => "")
    ++ (match value_string with
        | Option.some v => "value: \"" ++ v ++ "\""
        | Option.none => "")
    ++ (match children_query_expression_string_list with
        | Option.some cs => "children: [" ++ joinComma cs ++ "]"
        | Option.none => "")
    ++ "\x7d"

/-- `_assignment_ids_query_expression_string` (source lines 341-354): an `OR`
combinator over one `observer EQ` leaf per assignment id, in input order. -/
def _assignment_ids_query_expression_string (assignment_ids : List String) : String :=
  _query_expression_string Option.none (Option.some ("OR")) Option.none
    (Option.some (assignment_ids.map (fun assignment_id =>
      _query_expression_string (Option.some ("observer")) (Option.some ("EQ"))
        (Option.some assignment_id) Option.none)))

/-- `_start_time_query_expression_string` (source lines 356-363). -/
def _start_time_query_expression_string (start_time : PyDatetime) : String :=
  _query_expression_string (Option.some ("observed_time")) (Option.some ("GTE"))
    (Option.some (_datetime_honeycomb_string start_time)) Option.none

/-- `_end_time_query_expression_string` (source lines 365-372). -/
def _end_time_query_expression_string (end_time : PyDatetime) : String :=
  _query_expression_string (Option.some ("observed_time")) (Option.some ("LTE"))
    (Option.some (_datetime_honeycomb_string end_time)) Option.none

/-- `_combined_query_expression_string` (source lines 374-392): an `AND`
combinator whose children are the assignment-id `OR` node, then the `GTE`
leaf when a start time is given, then the `LTE` leaf when an end time is. -/
def _combined_query_expression_string (assignment_ids : List String)
    (start_time end_time : Option PyDatetime) : String :=
  _query_expression_string Option.none (Option.some ("AND")) Option.none
    (Option.some
      ([_assignment_ids_query_expression_string assignment_ids]
        ++ (match start_time with
            | Option.some st => [_start_time_query_expression_string st]
            | Option.none => [])
        ++ (match end_time with
            | Option.some et => [_end_time_query_expression_string et]
            | Option.none => [])))

/-- `_fetch_datapoints_object_time_series_query_string` (source lines
394-428): splice the filter expression into the fixed GraphQL document. -/
def _fetch_datapoints_object_time_series_query_string (query_expression_string : String) : String :=
  "\nquery fetchDataTimeSeries \x7b\n  findDatapoints(query: "
    ++ query_expression_string
    ++ ") \x7b\n    data \x7b\n      data_id\n      observed_time\n      observer \x7b\n        ... on Assignment \x7b\n            environment \x7b\n                name\n            \x7d\n            assigned \x7b\n              ... on Device \x7b\n                part_number\n                tag_id\n              \x7d\n              ... on Person \x7b\n                name\n              \x7d\n            \x7d\n        \x7d\n      \x7d\n      file \x7b\n        data\n        name\n        contentType\n      \x7d\n    \x7d\n  \x7d\n\x7d\n"

/-- One assignment of the environment snapshot. `start`/`«end»` arrive from
the remote store as timestamp strings; they enter the source only through
`_python_datetime_utc`, so they are modelled by their parsed typed value.
`assigned` is the polymorphic target record, read only via `.get(name)`. -/
structure Assignment where
  assignment_id : String
  start : Option PyDatetime
  «end» : Option PyDatetime
  assigned_type : String
  assigned : List (String × String)
deriving DecidableEq

/-- The state a constructed `DatabaseConnectionHoneycomb` façade holds that
the embedded operations read: the two mode flags, the configuration names,
and the assignment list of the environment snapshot fetched at construction
(`self.environment['assignments']`). The constructor guarantees
`object_type_honeycomb` and `object_id_field_name_honeycomb` are present
whenever both mode flags are set, so they are plain strings here. -/
structure DatabaseConnectionHoneycomb where
  time_series_database : Bool
  object_database : Bool
  environment_name_honeycomb : Option String
  object_type_honeycomb : String
  object_id_field_name_honeycomb : String
  environment_assignments : List Assignment

/-- The `start` skip test of the lookup loop (source lines 227-229): skip
when a start bound exists and the normalized timestamp is strictly before
it (`timestamp_datetime < _python_datetime_utc(start)`). -/
def startSkip (timestamp : PyDatetime) (assignment : Assignment) : Bool :=
  match assignment.start with
  | Option.some s => pyLt (_python_datetime_utc timestamp) (_python_datetime_utc s)
  | Option.none => false

/-- The `end` skip test of the lookup loop (source lines 230-232): skip when
an end bound exists and the normalized timestamp is strictly after it
(`timestamp_datetime > _python_datetime_utc(end)`). -/
def endSkip (timestamp : PyDatetime) (assignment : Assignment) : Bool :=
  match assignment.«end» with
  | Option.some e => pyGt (_python_datetime_utc timestamp) (_python_datetime_utc e)
  | Option.none => false

/-- The scan loop of `_lookup_assignment_id_object_time_series` (source lines
221-238): skip assignments of the wrong type, wrong target id, or whose
interval excludes the (normalized) timestamp — strictly-before-start or
strictly-after-end, a missing bound never excludes — and return the first
surviving assignment's id; `none` models the logged `return None`. -/
def lookupAssignmentScan (object_type object_id_field : String)
    (timestamp : PyDatetime) (object_id : String) : List Assignment → Option String
  | [] => Option.none
  | assignment :: rest =>
    if assignment.assigned_type != object_type then
      lookupAssignmentScan object_type object_id_field timestamp object_id rest
    else if assignment.assigned.lookup object_id_field != Option.some object_id then
      lookupAssignmentScan object_type object_id_field timestamp object_id rest
    else if startSkip timestamp assignment then
      lookupAssignmentScan object_type object_id_field timestamp object_id rest
    else if endSkip timestamp assignment then
      lookupAssignmentScan object_type object_id_field timestamp object_id rest
    else
      Option.some assignment.assignment_id

/-- `_lookup_assignment_id_object_time_series` (source lines 204-238). -/
def _lookup_assignment_id_object_time_series (conn : DatabaseConnectionHoneycomb)
    (timestamp : PyDatetime) (object_id : String) : Except String (Option String) :=
  if !conn.time_series_database || !conn.object_database
      || conn.environment_name_honeycomb.isNone then
    Except.error ("Assignment ID lookup only enabled for object time series databases with Honeycomb environment specified")
  else
    Except.ok (lookupAssignmentScan conn.object_type_honeycomb
      conn.object_id_field_name_honeycomb timestamp object_id conn.environment_assignments)

/-- Membership of a `dict.get` result in a Python list of ids (`None` is
never an element of the caller's id list). -/
def optMem (v : Option String) (ids : List String) : Bool :=
  match v with
  | Option.some s => ids.contains s
  | Option.none => false

/-- The target skip test of the relevant-assignment loop (source lines
252-253): skip when an id set is given and the assignment's target id
(`assigned.get(field)`, `None` when absent) is not in it. -/
def targetSkip (object_id_field : String) (object_ids : Option (List String))
    (assignment : Assignment) : Bool :=
  match object_ids with
  | Option.some ids => !optMem (assignment.assigned.lookup object_id_field) ids
  | Option.none => false

/-- The whole-interval-before-the-query skip test (source lines 254-256):
skip when both a query start and an assignment end exist and the normalized
query start is strictly after the normalized assignment end. -/
def endsBeforeSkip (start_time : Option PyDatetime) (assignment : Assignment) : Bool :=
  match start_time, assignment.«end» with
  | Option.some st, Option.some ae => pyGt (_python_datetime_utc st) (_python_datetime_utc ae)
  | _, _ => false

/-- The whole-interval-after-the-query skip test (source lines 257-259):
skip when both a query end and an assignment start exist and the normalized
query end is strictly before the normalized assignment start. -/
def startsAfterSkip (end_time : Option PyDatetime) (assignment : Assignment) : Bool :=
  match end_time, assignment.start with
  | Option.some et, Option.some astart => pyLt (_python_datetime_utc et) (_python_datetime_utc astart)
  | _, _ => false

/-- The accumulation loop of `_fetch_assignment_ids_object_time_series`
(source lines 248-261): skip wrong-type assignments, assignments whose target
is outside the requested id set (when one is given), and assignments whose
interval lies strictly outside the query interval; collect the ids of the
rest in input order. -/
def fetchAssignmentIdsScan (object_type object_id_field : String)
    (start_time end_time : Option PyDatetime) (object_ids : Option (List String)) :
    List Assignment → List String
  | [] => []
  | assignment :: rest =>
    if assignment.assigned_type != object_type then
      fetchAssignmentIdsScan object_type object_id_field start_time end_time object_ids rest
    else if targetSkip object_id_field object_ids assignment then
      fetchAssignmentIdsScan object_type object_id_field start_time end_time object_ids rest
    else if endsBeforeSkip start_time assignment then
      fetchAssignmentIdsScan object_type object_id_field start_time end_time object_ids rest
    else if startsAfterSkip end_time assignment then
      fetchAssignmentIdsScan object_type object_id_field start_time end_time object_ids rest
    else
      assignment.assignment_id ::
        fetchAssignmentIdsScan object_type object_id_field start_time end_time object_ids rest

/-- `_fetch_assignment_ids_object_time_series` (source lines 240-261). -/
def _fetch_assignment_ids_object_time_series (conn : DatabaseConnectionHoneycomb)
    (start_time end_time : Option PyDatetime) (object_ids : Option (List String)) :
    Except String (List String) :=
  if !conn.time_series_database || !conn.object_database
      || conn.environment_name_honeycomb.isNone then
    Except.error ("Assignment ID lookup only enabled for object time series databases with Honeycomb environment specified")
  else
    Except.ok (fetchAssignmentIdsScan conn.object_type_honeycomb
      conn.object_id_field_name_honeycomb start_time end_time object_ids
      conn.environment_assignments)

/-- The structured values `json.loads` can produce. -/
inductive Json where
  | null
  | bool (b : Bool)
  | num (n : Int)
  | str (s : String)
  | arr (elems : List Json)
  | obj (fields : List (String × Json))

/-- A value stored in one flattened output record: the normalized timestamp,
a string or `None` from the polymorphic observer record, or a merged payload
field. -/
inductive Value where
  | none
  | str (s : String)
  | time (d : PyDatetime)
  | json (j : Json)

/-- `dict.get` results entering a record slot (`None` when the path is
absent). -/
def optValue : Option String → Value
  | Option.some s => Value.str s
  | Option.none => Value.none

/-- Python `d[k] = v` / one step of `dict.update`: replace the value in place
when the key exists (keeping its position: the first occurrence — dict keys
are unique), append at the end otherwise. -/
def dictSet : List (String × Value) → String → Value → List (String × Value)
  | [], k, v => [(k, v)]
  | p :: rest, k, v => if p.1 == k then (k, v) :: rest else p :: dictSet rest k v

/-- Python `dict.update`: fold the new items, in order, into the record. -/
def dictUpdate (d : List (String × Value)) (kvs : List (String × Value)) :
    List (String × Value) :=
  kvs.foldl (fun acc kv => dictSet acc kv.1 kv.2) d

/-- One raw datapoint as the decode loop of `fetch_data_object_time_series`
reads it: `observed_time` is a timestamp string, modelled by its parsed typed
value (it enters the source only through `_python_datetime_utc`);
`observer_environment_name` is the `observer.environment.name` path (`none`
when absent); `observer_assigned` the polymorphic `observer.assigned` record;
`file_data` the `file.data` payload string (`none` when absent). -/
structure RawDatapoint where
  observed_time : PyDatetime
  observer_environment_name : Option String
  observer_assigned : List (String × String)
  file_data : Option String

/-- The loop body of `fetch_data_object_time_series` (source lines 174-185):
build the flattened record from the three standard fields, then try to parse
`file.data` with `json.loads` (an external collaborator, passed as `loads`)
and merge the parsed fields in. The whole parse-and-merge sits in a bare
`try/except: pass`, so a missing payload (`json.loads(None)` raises
`TypeError`), an unparseable payload, and a payload that parses to a
non-record (`datum.update` raises) all leave the record as built. (A payload
parsing to a list of key/value pairs would also merge in Python; no embedded
claim touches that exotic case.) -/
def decodeDatapoint (object_id_field_name : String) (loads : String → Option Json)
    (datapoint : RawDatapoint) : List (String × Value) :=
  let datum := dictSet [] ("timestamp") (Value.time (_python_datetime_utc datapoint.observed_time))
  let datum := dictSet datum ("environment_name") (optValue datapoint.observer_environment_name)
  let datum := dictSet datum ("object_id")
    (optValue (datapoint.observer_assigned.lookup object_id_field_name))
  match datapoint.file_data with
  | Option.none => datum
  | Option.some data_string =>
    match loads data_string with
    | Option.some (Json.obj fields) =>
      dictUpdate datum (fields.map (fun kv => (kv.1, Value.json kv.2)))
    | Option.some _ => datum
    | Option.none => datum

/-- The create-record mutation payload (`honeycomb.models.DatapointInput`
with its nested `S3FileInput`) that `write_data_object_time_series` hands to
the external client's `createDatapoint`. -/
structure DatapointInput where
  observer : Option String
  format : String
  fileName : String
  fileContentType : String
  fileData : String
  observed_time : String
deriving DecidableEq

/-- `write_data_object_time_series` (source lines 135-158). The caller's
`data_dict` and the external `json.dumps` are passed explicitly; the returned
`DatapointInput` is the mutation submitted through
`honeycomb_client.mutation.createDatapoint` (whose generated `data_id` reply
is opaque). Note the source never tests the looked-up assignment id for
`None`: it is threaded straight into the mutation's `observer` slot. -/
def write_data_object_time_series (conn : DatabaseConnectionHoneycomb)
    (dumps : List (String × Json) → String) (timestamp : PyDatetime)
    (object_id : String) (data_dict : List (String × Json)) :
    Except String DatapointInput :=
  if !conn.time_series_database || !conn.object_database then
    Except.error ("Writing data by timestamp and object ID only enabled for object time series databases")
  else
    match _lookup_assignment_id_object_time_series conn timestamp object_id with
    | Except.error e => Except.error e
    | Except.ok assignment_id =>
      let timestamp_honeycomb_format := _datetime_honeycomb_string timestamp
      let data_json := dumps data_dict
      Except.ok
        { observer := assignment_id,
          format := "application/json",
          fileName := "datapoint.json",
          fileContentType := "application/json",
          fileData := data_json,
          observed_time := timestamp_honeycomb_format }

/-- `_fetch_datapoints_object_time_series` (source lines 281-302): resolve the
relevant assignment ids, build and wrap the filter expression, and execute it
through the external client (passed as `client`). The result pairs the query
document actually submitted with the datapoints the client returned. -/
def _fetch_datapoints_object_time_series (conn : DatabaseConnectionHoneycomb)
    (client : String → List RawDatapoint) (start_time end_time : Option PyDatetime)
    (object_ids : Option (List String)) : Except String (String × List RawDatapoint) :=
  if !conn.time_series_database || !conn.object_database then
    Except.error ("Fetching datapoints by time interval and/or object ID only enabled for object time series databases")
  else
    match _fetch_assignment_ids_object_time_series conn start_time end_time object_ids with
    | Except.error e => Except.error e
    | Except.ok assignment_ids =>
      let query_expression_string :=
        _combined_query_expression_string assignment_ids start_time end_time
      let query_string :=
        _fetch_datapoints_object_time_series_query_string query_expression_string
      Except.ok (query_string, client query_string)

/-- `fetch_data_object_time_series` (source lines 160-186): guard the mode
flags, fetch the raw datapoints, and flatten each one with the decode loop. -/
def fetch_data_object_time_series (conn : DatabaseConnectionHoneycomb)
    (client : String → List RawDatapoint) (loads : String → Option Json)
    (start_time end_time : Option PyDatetime) (object_ids : Option (List String)) :
    Except String (List (List (String × Value))) :=
  if !conn.time_series_database || !conn.object_database then
    Except.error ("Fetching data by time interval and/or object ID only enabled for object time series databases")
  else
    match _fetch_datapoints_object_time_series conn client start_time end_time object_ids with
    | Except.error e => Except.error e
    | Except.ok r =>
      Except.ok (r.2.map (decodeDatapoint conn.object_id_field_name_honeycomb loads))

/-- Inclusive interval containment as §4.3 of the specification states it:
the normalized start (when present) is at or before the normalized query
instant and the normalized end (when present) is at or after it; a missing
bound is unbounded. -/
def containsInstant (a : Assignment) (timestamp : PyDatetime) : Bool :=
  (match a.start with
   | Option.some s =>
     decide (instantMicros (_python_datetime_utc s) ≤ instantMicros (_python_datetime_utc timestamp))
   | Option.none => true) &&
  (match a.«end» with
   | Option.some e =>
     decide (instantMicros (_python_datetime_utc timestamp) ≤ instantMicros (_python_datetime_utc e))
   | Option.none => true)

/-- The specification's "active" test: channel type and target id match and
the interval contains the query instant inclusively. -/
def activeMatch (object_type object_id_field : String) (timestamp : PyDatetime)
    (object_id : String) (a : Assignment) : Bool :=
  a.assigned_type == object_type &&
  a.assigned.lookup object_id_field == Option.some object_id &&
  containsInstant a timestamp

/-- The specification's "relevant" test: channel type matches, the target id
is in the requested set (no restriction when the set is absent), and the
assignment interval overlaps the query interval — it is not excluded by
`assignment.end < startTime` or `assignment.start > endTime`, where a missing
bound on either side never excludes. -/
def relevantMatch (object_type object_id_field : String)
    (start_time end_time : Option PyDatetime) (object_ids : Option (List String))
    (a : Assignment) : Bool :=
  a.assigned_type == object_type &&
  ((match object_ids with
    | Option.some ids => optMem (a.assigned.lookup object_id_field) ids
    | Option.none => true) &&
   ((match start_time, a.«end» with
     | Option.some st, Option.some ae =>
       decide (instantMicros (_python_datetime_utc st) ≤ instantMicros (_python_datetime_utc ae))
     | _, _ => true) &&
    (match end_time, a.start with
     | Option.some et, Option.some astart =>
       decide (instantMicros (_python_datetime_utc astart) ≤ instantMicros (_python_datetime_utc et))
     | _, _ => true)))

/-! ## Helper lemmas -/

theorem isDigit_digitChar_mod (n : Nat) : (Nat.digitChar (n % 10)).isDigit = true := by
  have h : n % 10 < 10 := Nat.mod_lt _ (by omega)
  revert h
  generalize n % 10 = k
  intro h
  interval_cases k <;> rfl

/-- Every rendering of broken-down fields matches the wire pattern: each pad
slot emits exactly its width in decimal digits and the separators are fixed. -/
theorem matchesHoneycombPattern_strftime (f : DateFields) :
    matchesHoneycombPattern (strftimeHoneycomb f) = true := by
  simp [matchesHoneycombPattern, strftimeHoneycomb, honeycombPatternSpec,
    pad4, pad2, pad6, checkPattern, isDigit_digitChar_mod]

theorem string_eq_of_data (s t : String) (h : s.data = t.data) : s = t := by
  cases s
  cases t
  exact congrArg String.mk h

theorem string_data_append (s t : String) : (s ++ t).data = s.data ++ t.data := rfl

theorem decide_le_eq_not_lt (x y : Int) : decide (y ≤ x) = !decide (x < y) := by
  by_cases h : x < y
  · simp [h, Int.not_le.mpr h]
  · simp [h, Int.not_lt.mp h]

/-- The specification's inclusive "active" test coincides with the negation
of the loop's strict skip tests. -/
theorem activeMatch_eq_scan_conditions (ot oif : String) (ts : PyDatetime) (oid : String)
    (a : Assignment) :
    activeMatch ot oif ts oid a =
      (!(a.assigned_type != ot) &&
       (!(a.assigned.lookup oif != Option.some oid) &&
        (!startSkip ts a && !endSkip ts a))) := by
  rcases hs : a.start with _ | s <;> rcases he : a.«end» with _ | e <;>
    simp only [activeMatch, containsInstant, startSkip, endSkip, hs, he, pyLt, pyGt, bne,
      Bool.not_not, decide_le_eq_not_lt, Bool.and_true, Bool.true_and, Bool.not_false,
      Bool.and_assoc]

/-- The lookup loop returns exactly the first assignment, in input order,
passing the specification's active test. -/
theorem lookupAssignmentScan_eq_find (ot oif : String) (ts : PyDatetime) (oid : String)
    (l : List Assignment) :
    lookupAssignmentScan ot oif ts oid l =
      (l.find? (activeMatch ot oif ts oid)).map (fun a => a.assignment_id) := by
  induction l with
  | nil => rfl
  | cons a rest ih =>
    rw [lookupAssignmentScan, List.find?_cons, activeMatch_eq_scan_conditions]
    by_cases h1 : (a.assigned_type != ot) = true
    · simp [h1, ih]
    · by_cases h2 : (a.assigned.lookup oif != Option.some oid) = true
      · simp [h1, h2, ih]
      · by_cases h3 : startSkip ts a = true
        · simp [h1, h2, h3, ih]
        · by_cases h4 : endSkip ts a = true
          · simp [h1, h2, h3, h4, ih]
          · simp [h1, h2, h3, h4]

/-- The specification's overlap test coincides with the negation of the
accumulation loop's strict skip tests. -/
theorem relevantMatch_eq_scan_conditions (ot oif : String) (st et : Option PyDatetime)
    (oids : Option (List String)) (a : Assignment) :
    relevantMatch ot oif st et oids a =
      (!(a.assigned_type != ot) &&
       (!targetSkip oif oids a &&
        (!endsBeforeSkip st a && !startsAfterSkip et a))) := by
  rcases hst : st with _ | s <;> rcases het : et with _ | e <;>
    rcases hs : a.start with _ | astart <;> rcases hae : a.«end» with _ | ae <;>
    rcases hoids : oids with _ | ids <;>
    simp only [relevantMatch, targetSkip, endsBeforeSkip, startsAfterSkip, hst, het, hs, hae,
      hoids, pyLt, pyGt, bne, Bool.not_not, decide_le_eq_not_lt, Bool.and_true, Bool.true_and,
      Bool.not_false]

/-- The accumulation loop keeps exactly the assignments passing the
specification's relevance test, in input order. -/
theorem fetchAssignmentIdsScan_eq_filter (ot oif : String) (st et : Option PyDatetime)
    (oids : Option (List String)) (l : List Assignment) :
    fetchAssignmentIdsScan ot oif st et oids l =
      (l.filter (relevantMatch ot oif st et oids)).map (fun a => a.assignment_id) := by
  induction l with
  | nil => rfl
  | cons a rest ih =>
    rw [fetchAssignmentIdsScan, List.filter_cons, relevantMatch_eq_scan_conditions]
    by_cases h1 : (a.assigned_type != ot) = true
    · simp [h1, ih]
    · by_cases h2 : targetSkip oif oids a = true
      · simp [h1, h2, ih]
      · by_cases h3 : endsBeforeSkip st a = true
        · simp [h1, h2, h3, ih]
        · by_cases h4 : startsAfterSkip et a = true
          · simp [h1, h2, h3, h4, ih]
          · simp [h1, h2, h3, h4, ih]

theorem strBeq_symm_false (a b : String) (h : (a == b) = false) : (b == a) = false := by
  simp only [beq_eq_false_iff_ne] at h ⊢
  exact fun hx => h hx.symm

theorem lookup_dictSet_self (d : List (String × Value)) (k : String) (v : Value) :
    (dictSet d k v).lookup k = Option.some v := by
  induction d with
  | nil => simp [dictSet, List.lookup]
  | cons p t ih =>
    by_cases hp : (p.1 == k) = true
    · simp [dictSet, hp, List.lookup]
    · have hp' : (p.1 == k) = false := by simpa using hp
      have hk : (k == p.1) = false := strBeq_symm_false _ _ hp'
      simp [dictSet, hp', hk, List.lookup, ih]

theorem lookup_dictSet_ne (d : List (String × Value)) (k k' : String) (v : Value)
    (h : (k' == k) = false) : (dictSet d k v).lookup k' = d.lookup k' := by
  induction d with
  | nil => simp [dictSet, List.lookup, h]
  | cons p t ih =>
    by_cases hp : (p.1 == k) = true
    · have hkp : (k' == p.1) = false := by
        simp only [beq_iff_eq] at hp
        rw [hp]
        exact h
      simp [dictSet, hp, List.lookup, hkp, h]
    · have hp' : (p.1 == k) = false := by simpa using hp
      by_cases hkp : (k' == p.1) = true
      · simp [dictSet, hp', List.lookup, hkp]
      · have hkp' : (k' == p.1) = false := by simpa using hkp
        simp [dictSet, hp', List.lookup, hkp', ih]

theorem dictUpdate_cons (d : List (String × Value)) (q : String × Value)
    (t : List (String × Value)) :
    dictUpdate d (q :: t) = dictUpdate (dictSet d q.1 q.2) t := rfl

theorem lookup_none_of_not_mem_keys (k : String) (t : List (String × Value))
    (h : k ∉ t.map Prod.fst) : t.lookup k = Option.none := by
  induction t with
  | nil => rfl
  | cons q rest ih =>
    obtain ⟨qk, qv⟩ := q
    simp only [List.map_cons, List.mem_cons, not_or] at h
    have hk : (k == qk) = false := by
      simp only [beq_eq_false_iff_ne]
      exact h.1
    simp [List.lookup, hk, ih h.2]

theorem lookup_dictUpdate_of_lookup_none (kvs : List (String × Value))
    (d : List (String × Value)) (k : String)
    (h : kvs.lookup k = Option.none) : (dictUpdate d kvs).lookup k = d.lookup k := by
  induction kvs generalizing d with
  | nil => rfl
  | cons q t ih =>
    obtain ⟨qk, qv⟩ := q
    by_cases hk : (k == qk) = true
    · simp [List.lookup, hk] at h
    · have hk' : (k == qk) = false := by simpa using hk
      simp only [List.lookup, hk'] at h
      rw [dictUpdate_cons, ih _ h, lookup_dictSet_ne _ _ _ _ hk']

/-- Folding a unique-keyed item list into a record leaves every folded key
bound to its folded value, whatever was bound before. -/
theorem lookup_dictUpdate_of_lookup_some (kvs : List (String × Value))
    (d : List (String × Value)) (k : String) (v : Value)
    (hnodup : (kvs.map Prod.fst).Nodup) (h : kvs.lookup k = Option.some v) :
    (dictUpdate d kvs).lookup k = Option.some v := by
  induction kvs generalizing d with
  | nil => cases h
  | cons q t ih =>
    obtain ⟨qk, qv⟩ := q
    simp only [List.map_cons, List.nodup_cons] at hnodup
    by_cases hk : (k == qk) = true
    · have hkeq : k = qk := by simpa using hk
      have hv : qv = v := by
        simp only [List.lookup, hk] at h
        exact Option.some.inj h
      have ht : t.lookup k = Option.none := by
        apply lookup_none_of_not_mem_keys
        rw [hkeq]
        exact hnodup.1
      rw [dictUpdate_cons, lookup_dictUpdate_of_lookup_none _ _ _ ht, hkeq,
        lookup_dictSet_self, hv]
    · have hk' : (k == qk) = false := by simpa using hk
      simp only [List.lookup, hk'] at h
      rw [dictUpdate_cons]
      exact ih _ hnodup.2 h

theorem lookup_map_json (fields : List (String × Json)) (k : String) :
    ((fields.map (fun kv => (kv.1, Value.json kv.2))).lookup k) =
      (fields.lookup k).map Value.json := by
  induction fields with
  | nil => rfl
  | cons q t ih =>
    obtain ⟨qk, qv⟩ := q
    by_cases hk : (k == qk) = true
    · simp [List.lookup, hk]
    · have hk' : (k == qk) = false := by simpa using hk
      simp [List.lookup, hk', ih]

theorem map_fst_map_json (fields : List (String × Json)) :
    ((fields.map (fun kv => (kv.1, Value.json kv.2))).map Prod.fst) =
      fields.map Prod.fst := by
  simp [List.map_map, Function.comp]

/-! ## Claim theorems -/

/-- C1: the claim says that when the active-assignment lookup finds no
assignment, `write_data_object_time_series` returns without submitting any
create-record mutation. The source does the opposite: it never tests the
looked-up id for `None` and submits the mutation with `observer = None`.
Evaluated at a façade whose environment holds no assignments: the lookup
reports no assignment, yet the write still produces a `createDatapoint`
mutation (with an absent observer). -/
theorem write_submits_mutation_despite_missing_assignment :
    _lookup_assignment_id_object_time_series
      { time_series_database := true, object_database := true,
        environment_name_honeycomb := Option.some ("env"),
        object_type_honeycomb := "DEVICE", object_id_field_name_honeycomb := "device_id",
        environment_assignments := [] }
      { clockMicros := 0, tz := Option.none } ("obj-1") = Except.ok Option.none ∧
    write_data_object_time_series
      { time_series_database := true, object_database := true,
        environment_name_honeycomb := Option.some ("env"),
        object_type_honeycomb := "DEVICE", object_id_field_name_honeycomb := "device_id",
        environment_assignments := [] }
      (fun _ => "\x7b\"x\": 1\x7d") { clockMicros := 0, tz := Option.none } ("obj-1")
      [(("x"), Json.num 1)] =
      Except.ok
        { observer := Option.none, format := "application/json",
          fileName := "datapoint.json", fileContentType := "application/json",
          fileData := "\x7b\"x\": 1\x7d",
          observed_time := "0001-01-01T00:00:00.000000Z" } := by
  constructor
  · rfl
  · rfl

/-- C2: the claim says that when relevant-assignment resolution yields zero
ids the fetch path fails rather than sending an `OR` of zero children. The
source has no such guard: with an environment holding no assignments the
resolution succeeds with `[]`, the combined expression is an `AND` wrapping
an empty-children `OR`, and the query built from exactly that vacuous filter
is executed against the client (here one returning no rows). -/
theorem fetch_executes_vacuous_filter_on_empty_assignment_set :
    _combined_query_expression_string [] Option.none Option.none =
      "\x7boperator: AND, children: [\x7boperator: OR, children: []\x7d]\x7d" ∧
    _fetch_assignment_ids_object_time_series
      { time_series_database := true, object_database := true,
        environment_name_honeycomb := Option.some ("env"),
        object_type_honeycomb := "DEVICE", object_id_field_name_honeycomb := "device_id",
        environment_assignments := [] }
      Option.none Option.none Option.none = Except.ok [] ∧
    _fetch_datapoints_object_time_series
      { time_series_database := true, object_database := true,
        environment_name_honeycomb := Option.some ("env"),
        object_type_honeycomb := "DEVICE", object_id_field_name_honeycomb := "device_id",
        environment_assignments := [] }
      (fun _ => []) Option.none Option.none Option.none =
      Except.ok
        (_fetch_datapoints_object_time_series_query_string
          "\x7boperator: AND, children: [\x7boperator: OR, children: []\x7d]\x7d", []) := by
  refine ⟨?_, ?_, ?_⟩
  · rfl
  · rfl
  · rfl

/-- C3: in an object-time-series façade, the assignment lookup returns
exactly the id of the first assignment in input order whose channel type and
target id match and whose interval contains the instant inclusively (a
missing bound is unbounded); in particular it never returns an assignment
whose interval excludes the instant, and among overlapping matches the first
in input order wins. -/
theorem lookup_assignment_first_containing_match (conn : DatabaseConnectionHoneycomb)
    (timestamp : PyDatetime) (object_id : String)
    (h1 : conn.time_series_database = true) (h2 : conn.object_database = true)
    (h3 : conn.environment_name_honeycomb.isSome = true) :
    _lookup_assignment_id_object_time_series conn timestamp object_id =
      Except.ok ((conn.environment_assignments.find?
        (activeMatch conn.object_type_honeycomb conn.object_id_field_name_honeycomb
          timestamp object_id)).map (fun a => a.assignment_id)) := by
  rcases hE : conn.environment_name_honeycomb with _ | name
  · rw [hE] at h3
    simp at h3
  · simp [_lookup_assignment_id_object_time_series, h1, h2, hE, lookupAssignmentScan_eq_find]

/-- Witness for C3: two overlapping device assignments; the first in input
order whose interval contains the instant is returned. -/
theorem lookup_assignment_first_containing_match_witness :
    _lookup_assignment_id_object_time_series
      { time_series_database := true, object_database := true,
        environment_name_honeycomb := Option.some ("env"),
        object_type_honeycomb := "DEVICE", object_id_field_name_honeycomb := "device_id",
        environment_assignments :=
          [{ assignment_id := "A1", start := Option.some { clockMicros := 1000, tz := Option.none },
             «end» := Option.none, assigned_type := "DEVICE",
             assigned := [(("device_id"), ("D1"))] },
           { assignment_id := "A2", start := Option.none, «end» := Option.none,
             assigned_type := "DEVICE", assigned := [(("device_id"), ("D1"))] }] }
      { clockMicros := 5000, tz := Option.none } ("D1") =
      Except.ok (Option.some ("A1")) := by
  rw [lookup_assignment_first_containing_match _ _ _ (by rfl) (by rfl) (by rfl)]
  rfl

/-- C4: in an object-time-series façade, the relevant-assignment resolution
keeps exactly the channel-type-and-target-matching assignments whose interval
overlaps the query interval: an assignment is excluded precisely when its end
is strictly before the query start or its start is strictly after the query
end, and a missing bound on either side never triggers exclusion. -/
theorem fetch_assignment_ids_overlap_filter (conn : DatabaseConnectionHoneycomb)
    (start_time end_time : Option PyDatetime) (object_ids : Option (List String))
    (h1 : conn.time_series_database = true) (h2 : conn.object_database = true)
    (h3 : conn.environment_name_honeycomb.isSome = true) :
    _fetch_assignment_ids_object_time_series conn start_time end_time object_ids =
      Except.ok ((conn.environment_assignments.filter
        (relevantMatch conn.object_type_honeycomb conn.object_id_field_name_honeycomb
          start_time end_time object_ids)).map (fun a => a.assignment_id)) := by
  rcases hE : conn.environment_name_honeycomb with _ | name
  · rw [hE] at h3
    simp at h3
  · simp [_fetch_assignment_ids_object_time_series, h1, h2, hE, fetchAssignmentIdsScan_eq_filter]

/-- Witness for C4: an open-ended assignment overlapping the query window is
kept; one whose interval ends before the query start is excluded. -/
theorem fetch_assignment_ids_overlap_filter_witness :
    _fetch_assignment_ids_object_time_series
      { time_series_database := true, object_database := true,
        environment_name_honeycomb := Option.some ("env"),
        object_type_honeycomb := "DEVICE", object_id_field_name_honeycomb := "device_id",
        environment_assignments :=
          [{ assignment_id := "A1", start := Option.some { clockMicros := 1000, tz := Option.none },
             «end» := Option.none, assigned_type := "DEVICE",
             assigned := [(("device_id"), ("D1"))] },
           { assignment_id := "A2", start := Option.none,
             «end» := Option.some { clockMicros := 100, tz := Option.none },
             assigned_type := "DEVICE", assigned := [(("device_id"), ("D2"))] }] }
      (Option.some { clockMicros := 200, tz := Option.none }) Option.none Option.none =
      Except.ok [("A1")] := by
  rw [fetch_assignment_ids_overlap_filter _ _ _ _ (by rfl) (by rfl) (by rfl)]
  rfl

set_option maxRecDepth 4000 in
/-- C5: for any two assignment ids and any start and end times, the combined
filter serializes to exactly one top-level `AND` whose children are the `OR`
node holding the two `observer EQ` leaves in input order, then the
`observed_time GTE` leaf, then the `observed_time LTE` leaf; serialization is
a function of its inputs, hence deterministic and order-preserving. -/
theorem combined_query_expression_exact_rendering (a b : String) (s e : PyDatetime) :
    _combined_query_expression_string [a, b] (Option.some s) (Option.some e) =
      "\x7boperator: AND, children: [\x7boperator: OR, children: [\x7bfield: \"observer\", operator: EQ, value: \""
        ++ a ++ "\"\x7d, \x7bfield: \"observer\", operator: EQ, value: \"" ++ b
        ++ "\"\x7d]\x7d, \x7bfield: \"observed_time\", operator: GTE, value: \""
        ++ _datetime_honeycomb_string s
        ++ "\"\x7d, \x7bfield: \"observed_time\", operator: LTE, value: \""
        ++ _datetime_honeycomb_string e
        ++ "\"\x7d]\x7d" := by
  apply string_eq_of_data
  simp only [_combined_query_expression_string, _assignment_ids_query_expression_string,
    _start_time_query_expression_string, _end_time_query_expression_string,
    _query_expression_string, joinComma, List.map, List.append, string_data_append,
    List.append_assoc]
  rfl

/-- C6: for every timestamp the normalizer accepts (its normalized value is a
representable `datetime`), the remote-string rendering is the `strftime`
format of the UTC-normalized value, and the resulting string matches the
exact pattern: four digits, dash, two digits, dash, two digits, `T`, three
colon-separated two-digit groups, dot, six digits, literal `Z`. -/
theorem datetime_honeycomb_string_matches_pattern (timestamp : PyDatetime)
    (h : validPy (_python_datetime_utc timestamp)) :
    _datetime_honeycomb_string timestamp =
      strftimeHoneycomb (fieldsOfMicros (_python_datetime_utc timestamp).clockMicros.toNat) ∧
    matchesHoneycombPattern (_datetime_honeycomb_string timestamp) = true :=
  ⟨rfl, matchesHoneycombPattern_strftime _⟩

/-- Witness for C6 at 0001-01-01T01:00:00 UTC. -/
theorem datetime_honeycomb_string_matches_pattern_witness :
    validPy (_python_datetime_utc { clockMicros := 3600000000, tz := Option.some 0 }) ∧
    matchesHoneycombPattern
      (_datetime_honeycomb_string { clockMicros := 3600000000, tz := Option.some 0 }) = true :=
  ⟨by decide,
   (datetime_honeycomb_string_matches_pattern
     { clockMicros := 3600000000, tz := Option.some 0 } (by decide)).2⟩

/-- C7: UTC normalization is idempotent, a naive value is tagged UTC without
shifting its clock value, and an offset-carrying value is converted to UTC by
shifting its clock value by the offset. -/
theorem python_datetime_utc_idempotent_offset_rule :
    (∀ d : PyDatetime, _python_datetime_utc (_python_datetime_utc d) = _python_datetime_utc d) ∧
    (∀ c : Int, _python_datetime_utc { clockMicros := c, tz := Option.none } =
      { clockMicros := c, tz := Option.some 0 }) ∧
    (∀ c off : Int, _python_datetime_utc { clockMicros := c, tz := Option.some off } =
      { clockMicros := c - off, tz := Option.some 0 }) := by
  refine ⟨?_, ?_, ?_⟩
  · intro d
    cases h : d.tz <;> simp [_python_datetime_utc, h]
  · intro c
    rfl
  · intro c off
    rfl

/-- C8: when either mode flag is unset, the public write and fetch both fail
with the mode-guard `ValueError` — for any client whatsoever, so before any
client interaction — and either operation can only produce a result when
both flags are set. -/
theorem mode_flags_guard_write_and_fetch (conn : DatabaseConnectionHoneycomb)
    (dumps : List (String × Json) → String) (timestamp : PyDatetime) (object_id : String)
    (data_dict : List (String × Json)) (client : String → List RawDatapoint)
    (loads : String → Option Json) (start_time end_time : Option PyDatetime)
    (object_ids : Option (List String)) :
    ((conn.time_series_database && conn.object_database) = false →
      write_data_object_time_series conn dumps timestamp object_id data_dict =
        Except.error ("Writing data by timestamp and object ID only enabled for object time series databases") ∧
      fetch_data_object_time_series conn client loads start_time end_time object_ids =
        Except.error ("Fetching data by time interval and/or object ID only enabled for object time series databases")) ∧
    (∀ r, write_data_object_time_series conn dumps timestamp object_id data_dict = Except.ok r →
      conn.time_series_database = true ∧ conn.object_database = true) ∧
    (∀ rs, fetch_data_object_time_series conn client loads start_time end_time object_ids =
        Except.ok rs →
      conn.time_series_database = true ∧ conn.object_database = true) := by
  cases hts : conn.time_series_database <;> cases hob : conn.object_database <;>
    simp [write_data_object_time_series, fetch_data_object_time_series,
      _fetch_datapoints_object_time_series, _fetch_assignment_ids_object_time_series, hts, hob]

/-- Witness for C8: with the time-series flag unset, both operations fail
with the mode-guard message. -/
theorem mode_flags_guard_write_and_fetch_witness :
    write_data_object_time_series
      { time_series_database := false, object_database := true,
        environment_name_honeycomb := Option.none, object_type_honeycomb := "DEVICE",
        object_id_field_name_honeycomb := "device_id", environment_assignments := [] }
      (fun _ => "") { clockMicros := 0, tz := Option.none } ("obj") [] =
      Except.error ("Writing data by timestamp and object ID only enabled for object time series databases") ∧
    fetch_data_object_time_series
      { time_series_database := false, object_database := true,
        environment_name_honeycomb := Option.none, object_type_honeycomb := "DEVICE",
        object_id_field_name_honeycomb := "device_id", environment_assignments := [] }
      (fun _ => []) (fun _ => Option.none) Option.none Option.none Option.none =
      Except.error ("Fetching data by time interval and/or object ID only enabled for object time series databases") :=
  (mode_flags_guard_write_and_fetch _ _ _ _ _ _ _ _ _ _).1 rfl

/-- C9: when the payload string fails to parse, decoding still produces the
record, holding exactly the `timestamp`, `environment_name` and `object_id`
fields and nothing merged; the parse failure is not surfaced (the decode
function is total). -/
theorem decode_swallows_unparseable_payload (object_id_field : String)
    (loads : String → Option Json) (datapoint : RawDatapoint) (s : String)
    (hfile : datapoint.file_data = Option.some s) (hfail : loads s = Option.none) :
    decodeDatapoint object_id_field loads datapoint =
      [(("timestamp"), Value.time (_python_datetime_utc datapoint.observed_time)),
       (("environment_name"), optValue datapoint.observer_environment_name),
       (("object_id"), optValue (datapoint.observer_assigned.lookup object_id_field))] := by
  simp only [decodeDatapoint, hfile, hfail]
  rfl

/-- Witness for C9 on the payload string of the specification's scenario. -/
theorem decode_swallows_unparseable_payload_witness :
    decodeDatapoint ("device_id") (fun _ => Option.none)
      { observed_time := { clockMicros := 0, tz := Option.none },
        observer_environment_name := Option.some ("Env"),
        observer_assigned := [(("device_id"), ("D1"))],
        file_data := Option.some ("not json") } =
      [(("timestamp"), Value.time { clockMicros := 0, tz := Option.some 0 }),
       (("environment_name"), Value.str ("Env")),
       (("object_id"), Value.str ("D1"))] := by
  rw [decode_swallows_unparseable_payload _ _ _ ("not json") (by rfl) (by rfl)]
  rfl

/-- C10: when the payload parses to a record that itself binds `timestamp`,
`environment_name` or `object_id` (its keys being unique, as parsed Python
dict keys are), the merged payload value is what the flattened record finally
holds at that key — the merge is applied after the three standard fields are
set and overwrites them. -/
theorem payload_fields_overwrite_standard_fields (object_id_field : String)
    (loads : String → Option Json) (datapoint : RawDatapoint) (s : String)
    (fields : List (String × Json)) (k : String) (v : Json)
    (hfile : datapoint.file_data = Option.some s)
    (hparse : loads s = Option.some (Json.obj fields))
    (hk : k = ("timestamp") ∨ k = ("environment_name") ∨ k = ("object_id"))
    (hnodup : (fields.map Prod.fst).Nodup) (hv : fields.lookup k = Option.some v) :
    (decodeDatapoint object_id_field loads datapoint).lookup k =
      Option.some (Value.json v) := by
  simp only [decodeDatapoint, hfile, hparse]
  apply lookup_dictUpdate_of_lookup_some
  · rw [map_fst_map_json]
    exact hnodup
  · rw [lookup_map_json, hv]
    rfl

/-- Witness for C10: a payload binding `timestamp` overwrites the extracted
timestamp field. -/
theorem payload_fields_overwrite_standard_fields_witness :
    (decodeDatapoint ("device_id")
      (fun _ => Option.some (Json.obj [(("timestamp"), Json.num 42)]))
      { observed_time := { clockMicros := 0, tz := Option.none },
        observer_environment_name := Option.some ("Env"),
        observer_assigned := [(("device_id"), ("D1"))],
        file_data := Option.some ("payload") }).lookup ("timestamp") =
      Option.some (Value.json (Json.num 42)) := by
  exact payload_fields_overwrite_standard_fields _ _ _ ("payload")
    [(("timestamp"), Json.num 42)] _ _ (by rfl) (by rfl) (Or.inl rfl) (by decide) (by rfl)
